import Mathlib

/-!
Shallow embedding of the Instance Lifecycle Orchestrator of this repository:
`InstanceController` in `src/whatsapp/controllers/instance.controller.ts`.

The controller's collaborators (auth service, monitor service, per-channel
services, the Baileys/Business protocol engine, the exception classes) are not
under `src/`; where their behaviour matters for a claim they are modelled from
the spec, each such definition carries a doc comment saying so.  External
nondeterminism (which collaborator call fails, what the engine produced after
the settle delay, fresh ids) is captured in an `Env` record so that theorems can
quantify over it; all persistent state lives in a `World` record that is
threaded explicitly, including across thrown errors (a JS `throw` does not roll
back already-performed mutations).
-/

deriving instance DecidableEq for Except

namespace EvoApi

/-- Association-list lookup keyed by instance name (models a JS object used as a
string-keyed map, e.g. `waMonitor.waInstances`). -/
def lookupA {β : Type} (k : String) : List (String × β) → Option β
  | [] => none
  | (k2, v) :: rest => if k2 = k then some v else lookupA k rest

/-- Association-list insert-or-replace (JS property assignment `obj[k] = v`). -/
def upsertA {β : Type} (k : String) (v : β) : List (String × β) → List (String × β)
  | [] => [(k, v)]
  | (k2, v2) :: rest => if k2 = k then (k, v) :: rest else (k2, v2) :: upsertA k v rest

/-- Association-list delete (JS `delete obj[k]`; a no-op when the key is absent). -/
def removeA {β : Type} (k : String) : List (String × β) → List (String × β)
  | [] => []
  | (k2, v2) :: rest => if k2 = k then removeA k rest else (k2, v2) :: removeA k rest

/-- JS truthiness of an optional string (`undefined` and `""` are falsy). -/
def truthyS : Option String → Bool
  | none => false
  | some s => !s.isEmpty

/-- JS truthiness of an optional boolean (`undefined` is falsy). -/
def truthyB : Option Bool → Bool
  | none => false
  | some b => b

/-- Errors thrown inside the controller.  `badRequest m` models
`BadRequestException(m)`, whose thrown object carries `message: [m]` (an
array); `internalError m` models `InternalServerErrorException(m)` likewise;
`jsError m` models a native JS error (e.g. a TypeError) whose `message` is the
plain string `m`. -/
inductive JsError where
  | badRequest (m : String)
  | internalError (m : String)
  | jsError (m : String)
  deriving DecidableEq, Repr

/-- `error.message[0]` as read by the outer catch of `createInstance`
(instance.controller.ts lines 567-570): for the exception classes the message
field is an array, so index 0 is the whole message string; for a native error
the message is a string, so index 0 is its first character. -/
def messageZero : JsError → String
  | .badRequest m => m
  | .internalError m => m
  | .jsError m => String.mk (m.data.take 1)

/-- JS `error.toString()` as used by `deleteInstance` and `logout`: the
exception classes throw plain objects, which stringify to "[object Object]";
a native error prints as "Error: " followed by its message. -/
def jsToString : JsError → String
  | .badRequest _ => "[object Object]"
  | .internalError _ => "[object Object]"
  | .jsError m => "Error: " ++ m

/-- Modelled from the spec: the destination-address well-formedness check
(§4.3 "well-formed URL for webhook/typebot variants").  In the source this is
`isURL(s, { require_tld: false })` from the external class-validator library,
which is not under `src/`; we model a URL as an http/https scheme followed by a
nonempty remainder. -/
def isURLb (s : String) : Bool :=
  ("http://".data.isPrefixOf s.data && decide (7 < s.data.length)) ||
    ("https://".data.isPrefixOf s.data && decide (8 < s.data.length))

/-- The integration tag selecting the business-API session engine
(`Integration.WHATSAPP_BUSINESS` in wa.types). -/
def WHATSAPP_BUSINESS : String := "WHATSAPP-BUSINESS"

/-- The inline default event list that `createInstance` repeats verbatim in its
webhook (lines 156-183), websocket (208-235), rabbitmq (257-284) and sqs
(306-333) blocks. -/
def defaultInlineEvents : List String :=
  [ "APPLICATION_STARTUP"
  , "QRCODE_UPDATED"
  , "MESSAGES_SET"
  , "MESSAGES_UPSERT"
  , "MESSAGES_UPDATE"
  , "MESSAGES_DELETE"
  , "SEND_MESSAGE"
  , "CONTACTS_SET"
  , "CONTACTS_UPSERT"
  , "CONTACTS_UPDATE"
  , "PRESENCE_UPDATE"
  , "CHATS_SET"
  , "CHATS_UPSERT"
  , "CHATS_UPDATE"
  , "CHATS_DELETE"
  , "GROUPS_UPSERT"
  , "GROUP_UPDATE"
  , "GROUP_PARTICIPANTS_UPDATE"
  , "CONNECTION_UPDATE"
  , "LABELS_EDIT"
  , "LABELS_ASSOCIATION"
  , "CALL"
  , "NEW_JWT_TOKEN"
  , "TYPEBOT_START"
  , "TYPEBOT_CHANGE_STATUS"
  , "CHAMA_AI_ACTION" ]

/-- Modelled from the spec: the Event Catalog's default subscription set (§3,
§4.1) — "the full enumeration" of the closed EventKind enum — since the catalog
module (wa.types) is not under `src/`.  The enumeration spans application
lifecycle, QR updates, message set/upsert/update/delete, send, presence,
contact/chat/group mutations, connection updates, label edits, calls, token
refresh and chatbot lifecycle, matching the spec's ≈26 kinds. -/
def catalogDefaultEvents : List String :=
  [ "APPLICATION_STARTUP"
  , "QRCODE_UPDATED"
  , "MESSAGES_SET"
  , "MESSAGES_UPSERT"
  , "MESSAGES_UPDATE"
  , "MESSAGES_DELETE"
  , "SEND_MESSAGE"
  , "CONTACTS_SET"
  , "CONTACTS_UPSERT"
  , "CONTACTS_UPDATE"
  , "PRESENCE_UPDATE"
  , "CHATS_SET"
  , "CHATS_UPSERT"
  , "CHATS_UPDATE"
  , "CHATS_DELETE"
  , "GROUPS_UPSERT"
  , "GROUP_UPDATE"
  , "GROUP_PARTICIPANTS_UPDATE"
  , "CONNECTION_UPDATE"
  , "LABELS_EDIT"
  , "LABELS_ASSOCIATION"
  , "CALL"
  , "NEW_JWT_TOKEN"
  , "TYPEBOT_START"
  , "TYPEBOT_CHANGE_STATUS"
  , "CHAMA_AI_ACTION" ]

/-- Order-insensitive set equality of event lists (the spec's §8 comparison). -/
def sameSet (a b : List String) : Prop := ∀ s, s ∈ a ↔ s ∈ b

/-- The request body of `createInstance` (`InstanceDto`, with every field
optional exactly as in the DTO class). -/
structure InstanceDto where
  instanceName : String
  webhook : Option String := none
  webhook_by_events : Option Bool := none
  webhook_base64 : Option Bool := none
  events : Option (List String) := none
  qrcode : Option Bool := none
  number : Option String := none
  integration : Option String := none
  token : Option String := none
  chatwoot_account_id : Option String := none
  chatwoot_token : Option String := none
  chatwoot_url : Option String := none
  chatwoot_sign_msg : Option Bool := none
  chatwoot_reopen_conversation : Option Bool := none
  chatwoot_conversation_pending : Option Bool := none
  chatwoot_import_contacts : Option Bool := none
  chatwoot_import_messages : Option Bool := none
  chatwoot_days_limit_import_messages : Option Nat := none
  reject_call : Option Bool := none
  msg_call : Option String := none
  groups_ignore : Option Bool := none
  always_online : Option Bool := none
  read_messages : Option Bool := none
  read_status : Option Bool := none
  sync_full_history : Option Bool := none
  websocket_enabled : Option Bool := none
  websocket_events : Option (List String) := none
  rabbitmq_enabled : Option Bool := none
  rabbitmq_events : Option (List String) := none
  sqs_enabled : Option Bool := none
  sqs_events : Option (List String) := none
  typebot_url : Option String := none
  typebot : Option String := none
  typebot_expire : Option Nat := none
  typebot_keyword_finish : Option String := none
  typebot_delay_message : Option Nat := none
  typebot_unknown_message : Option String := none
  typebot_listening_from_me : Option Bool := none
  deriving DecidableEq, Repr

/-- One live instance as held in `waMonitor.waInstances`: the startup-service
object with its name, which engine variant backs it (Baileys vs Business), its
connection state string (`close` / `connecting` / `open`), its cached QR
artifact, and how many engine sessions have been initiated on it. -/
structure InstanceRec where
  instanceName : String
  service : String
  state : String := "close"
  qrCode : Option String := none
  sessions : Nat := 0
  deriving DecidableEq, Repr

/-- A freshly constructed startup service (lines 99-116): modelled from the
spec, a new Connection State Machine starts in the closed state (§3) with no
QR artifact and no engine session yet. -/
def freshRec (name service : String) : InstanceRec :=
  { instanceName := name, service := service }

/-- The webhook channel configuration persisted by `webhookService.create`
(lines 187-193). -/
structure WebhookConfig where
  enabled : Bool
  url : String
  events : List String
  webhook_by_events : Option Bool
  webhook_base64 : Option Bool
  deriving DecidableEq, Repr

/-- The configuration persisted by the websocket / rabbitmq / sqs services
(lines 239-242, 288-291, 337-340). -/
structure EventsConfig where
  enabled : Bool
  events : List String
  deriving DecidableEq, Repr

/-- The typebot channel configuration persisted by `typebotService.create`
(lines 356-365). -/
structure TypebotConfig where
  enabled : Bool
  url : String
  typebot : Option String
  expire : Option Nat
  keyword_finish : Option String
  delay_message : Option Nat
  unknown_message : Option String
  listening_from_me : Option Bool
  deriving DecidableEq, Repr

/-- The chatwoot (CRM-sync) configuration persisted by `chatwootService.create`
(lines 493-507). -/
structure ChatwootConfig where
  enabled : Bool
  account_id : String
  token : String
  url : String
  sign_msg : Bool
  name_inbox : String
  number : Option String
  reopen_conversation : Bool
  conversation_pending : Bool
  import_contacts : Bool
  import_messages : Bool
  days_limit_import_messages : Nat
  auto_create : Bool
  deriving DecidableEq, Repr

/-- The baseline behavioural settings written by `settingsService.create`
(lines 372-384). -/
structure LocalSettings where
  reject_call : Bool
  msg_call : String
  groups_ignore : Bool
  always_online : Bool
  read_messages : Bool
  read_status : Bool
  sync_full_history : Bool
  deriving DecidableEq, Repr

/-- The integration data written by `integrationService.create` (lines
399-403). -/
structure IntegrationData where
  integration : Option String
  number : Option String
  token : Option String
  deriving DecidableEq, Repr

/-- All persistent state visible to the controller: the in-memory registry
(`waMonitor.waInstances`), the tokens already issued (for the duplicate-token
check), the persisted instance data of `waMonitor.saveInstance`, one config
store per channel service, the settings and integration stores, broker queues,
the chatwoot cache, and the stream of emitted events. -/
structure World where
  waInstances : List (String × InstanceRec) := []
  usedTokens : List String := []
  savedData : List (String × IntegrationData) := []
  webhookStore : List (String × WebhookConfig) := []
  websocketStore : List (String × EventsConfig) := []
  rabbitmqStore : List (String × EventsConfig) := []
  sqsStore : List (String × EventsConfig) := []
  typebotStore : List (String × TypebotConfig) := []
  chatwootStore : List (String × ChatwootConfig) := []
  settingsStore : List (String × LocalSettings) := []
  integrationStore : List (String × IntegrationData) := []
  rabbitQueues : List String := []
  chatwootCacheKeys : List String := []
  emitted : List (String × String) := []
  deriving DecidableEq, Repr

/-- External nondeterminism: fresh identifiers, server configuration, which
collaborator call throws, and what the protocol engine produced by the time the
settle delay has elapsed. -/
structure Env where
  freshId : String := "id-1"
  freshHash : String := "hash-1"
  serverUrl : String := "http://server.example"
  waBusinessWebhookTest : Option String := none
  waBusinessToken : String := ""
  webhookCreateFails : Bool := false
  websocketCreateFails : Bool := false
  rabbitmqCreateFails : Bool := false
  sqsCreateFails : Bool := false
  typebotCreateFails : Bool := false
  chatwootCreateFails : Bool := false
  connectError : Option String := none
  stateAfterConnect : String := "connecting"
  qrAfterConnect : Option String := some "qr-1"
  logoutError : Option String := none
  deriving DecidableEq, Repr

/-- Update the registry entry for `k` in place (the controller holds an alias
of the object stored in `waInstances`, so mutating `instance` mutates the
registry record). -/
def updateInst (k : String) (f : InstanceRec → InstanceRec)
    (l : List (String × InstanceRec)) : List (String × InstanceRec) :=
  match lookupA k l with
  | some r => upsertA k (f r) l
  | none => l

/-- Modelled from the spec: `authService.checkDuplicateToken` (auth service is
not under `src/`) — "Reject duplicate credential tokens before any mutation"
(§4.5 step 1); throws `BadRequestException` when the supplied token is already
issued to some instance. -/
def checkDuplicateToken (token : Option String) (w : World) : Except JsError Unit :=
  match token with
  | some t => if w.usedTokens.contains t then .error (.badRequest "Token already exists") else .ok ()
  | none => .ok ()

/-- Modelled from the spec: `authService.generateHash` (not under `src/`) —
credential issuance; returns the supplied token as the credential hash when one
was given, otherwise a freshly generated one, and records it as issued. -/
def generateHash (env : Env) (token : Option String) (w : World) : String × World :=
  let h := if truthyS token then token.getD "" else env.freshHash
  (h, { w with usedTokens := h :: w.usedTokens })

/-- Modelled from the spec: `waMonitor.saveInstance` (monitor service is not
under `src/`) — persists the instance data blob keyed by instance name
(lines 118; spec §6 repository `put`). -/
def saveInstance (dto : InstanceDto) (w : World) : World :=
  { w with savedData :=
      upsertA dto.instanceName ⟨dto.integration, dto.number, dto.token⟩ w.savedData }

/-- Modelled from the spec: the protocol engine's `connect` as invoked through
`instance.connectToWhatsapp(number)` plus the fixed settle delay (the startup
services are not under `src/`; spec §4.2, §6): it may raise an EngineError
(`InternalServerErrorException`), otherwise it initiates one engine session and
by the end of the delay the session has reached `env.stateAfterConnect` with
`env.qrAfterConnect` as the cached QR artifact. -/
def engineConnect (env : Env) (name : String) (w : World) : Except JsError World :=
  match env.connectError with
  | some m => .error (.internalError m)
  | none =>
    let f := fun (r : InstanceRec) =>
      { r with state := env.stateAfterConnect, qrCode := env.qrAfterConnect,
               sessions := r.sessions + 1 }
    .ok { w with waInstances := updateInst name f w.waInstances }

/-- The webhook block of `createInstance` (lines 145-199).  The URL validation
(148-150) sits before the try, so its `BadRequestException` escapes; everything
inside the try (event-list resolution, `webhookService.create`,
`webhookService.find`) has its errors caught and logged, leaving
`webhookEvents` undefined. -/
def webhookStage (env : Env) (dto : InstanceDto) (name : String) (w : World) :
    Except JsError (Option (List String) × World) :=
  if truthyS dto.webhook then
    if !isURLb (dto.webhook.getD "") then
      .error (.badRequest "Invalid \"url\" property in webhook")
    else
      let newEvents :=
        match dto.events with
        | none => defaultInlineEvents
        | some evs => if evs.isEmpty then defaultInlineEvents else evs
      if env.webhookCreateFails then .ok (none, w)
      else
        let cfg : WebhookConfig :=
          ⟨true, dto.webhook.getD "", newEvents, dto.webhook_by_events, dto.webhook_base64⟩
        let w := { w with webhookStore := upsertA name cfg w.webhookStore }
        match lookupA name w.webhookStore with
        | some c => .ok (some c.events, w)
        | none => .ok (none, w)
  else .ok (none, w)

/-- The websocket block (lines 201-248).  Everything, including the read
`websocket_events.length`, sits inside the try: when the caller omits
`websocket_events`, that read raises a TypeError which is caught and logged, so
the channel is silently not configured. -/
def websocketStage (env : Env) (dto : InstanceDto) (name : String) (w : World) :
    Option (List String) × World :=
  if truthyB dto.websocket_enabled then
    match dto.websocket_events with
    | none => (none, w)
    | some evs =>
      let newEvents := if evs.isEmpty then defaultInlineEvents else evs
      if env.websocketCreateFails then (none, w)
      else
        let w := { w with websocketStore := upsertA name ⟨true, newEvents⟩ w.websocketStore }
        match lookupA name w.websocketStore with
        | some c => (some c.events, w)
        | none => (none, w)
  else (none, w)

/-- The rabbitmq block (lines 250-297); same shape as the websocket block, and
a successful create also asserts the broker queues for the instance. -/
def rabbitmqStage (env : Env) (dto : InstanceDto) (name : String) (w : World) :
    Option (List String) × World :=
  if truthyB dto.rabbitmq_enabled then
    match dto.rabbitmq_events with
    | none => (none, w)
    | some evs =>
      let newEvents := if evs.isEmpty then defaultInlineEvents else evs
      if env.rabbitmqCreateFails then (none, w)
      else
        let w := { w with rabbitmqStore := upsertA name ⟨true, newEvents⟩ w.rabbitmqStore,
                          rabbitQueues := name :: w.rabbitQueues }
        match lookupA name w.rabbitmqStore with
        | some c => (some c.events, w)
        | none => (none, w)
  else (none, w)

/-- The sqs block (lines 299-346); same shape as the websocket block. -/
def sqsStage (env : Env) (dto : InstanceDto) (name : String) (w : World) :
    Option (List String) × World :=
  if truthyB dto.sqs_enabled then
    match dto.sqs_events with
    | none => (none, w)
    | some evs =>
      let newEvents := if evs.isEmpty then defaultInlineEvents else evs
      if env.sqsCreateFails then (none, w)
      else
        let w := { w with sqsStore := upsertA name ⟨true, newEvents⟩ w.sqsStore }
        match lookupA name w.sqsStore with
        | some c => (some c.events, w)
        | none => (none, w)
  else (none, w)

/-- The typebot block (lines 348-369).  Unlike the webhook block, the URL
validation (350-352) sits inside the try, so a malformed `typebot_url` raises a
`BadRequestException` that is immediately caught and logged; the call
continues. -/
def typebotStage (env : Env) (dto : InstanceDto) (name : String) (w : World) : World :=
  if truthyS dto.typebot_url then
    if !isURLb (dto.typebot_url.getD "") then w
    else if env.typebotCreateFails then w
    else
      let cfg : TypebotConfig :=
        ⟨true, dto.typebot_url.getD "", dto.typebot, dto.typebot_expire,
         dto.typebot_keyword_finish, dto.typebot_delay_message,
         dto.typebot_unknown_message, dto.typebot_listening_from_me⟩
      { w with typebotStore := upsertA name cfg w.typebotStore }
  else w

/-- The baseline settings object (lines 372-380), with the source's `||` and
`??` defaulting semantics. -/
def mkSettings (dto : InstanceDto) : LocalSettings :=
  { reject_call := truthyB dto.reject_call
  , msg_call := dto.msg_call.getD ""
  , groups_ignore := dto.groups_ignore.getD true
  , always_online := truthyB dto.always_online
  , read_messages := truthyB dto.read_messages
  , read_status := truthyB dto.read_status
  , sync_full_history := dto.sync_full_history.getD false }

/-- The `instance` block of the returned result (lines 414-422 / 512-520). -/
structure ResultInstance where
  instanceName : String
  instanceId : String
  integration : Option String
  webhook_wa_business : Option String
  access_token_wa_business : String
  status : String
  deriving DecidableEq, Repr

/-- The `webhook` block of the returned result (lines 424-429 / 522-527). -/
structure ResultWebhook where
  webhook : Option String
  webhook_by_events : Option Bool
  webhook_base64 : Option Bool
  events : Option (List String)
  deriving DecidableEq, Repr

/-- The `websocket` / `rabbitmq` / `sqs` blocks of the returned result. -/
structure ResultToggle where
  enabled : Option Bool
  events : Option (List String)
  deriving DecidableEq, Repr

/-- The `typebot` block of the returned result (lines 442-451 / 540-549). -/
structure ResultTypebot where
  enabled : Bool
  url : Option String
  typebot : Option String
  expire : Option Nat
  keyword_finish : Option String
  delay_message : Option Nat
  unknown_message : Option String
  listening_from_me : Option Bool
  deriving DecidableEq, Repr

/-- The `chatwoot` block of the second return (lines 551-565). -/
structure ResultChatwoot where
  enabled : Bool
  account_id : String
  token : String
  url : String
  sign_msg : Bool
  reopen_conversation : Bool
  conversation_pending : Bool
  import_contacts : Bool
  import_messages : Bool
  days_limit_import_messages : Nat
  number : Option String
  name_inbox : String
  webhook_url : String
  deriving DecidableEq, Repr

/-- The value returned by `createInstance`.  `inst` is the source's `instance`
field (renamed: `instance` is a Lean keyword).  The first return carries a
possibly-undefined `qrcode` and no `chatwoot` key; the second carries a
`chatwoot` block and no `qrcode` key — both are modelled with `Option`. -/
structure CreateResult where
  inst : ResultInstance
  hash : String
  webhook : ResultWebhook
  websocket : ResultToggle
  rabbitmq : ResultToggle
  sqs : ResultToggle
  typebot : ResultTypebot
  settings : LocalSettings
  qrcode : Option String
  chatwoot : Option ResultChatwoot
  deriving DecidableEq, Repr

/-- The body of `createInstance` inside the outer try (lines 88-566), in
source order: duplicate-token check; business-token requirement; startup-service
construction; `saveInstance`; fresh instanceId; INSTANCE_CREATE dispatch;
registry write; hash generation; the four event-channel blocks; typebot;
settings; business-number requirement; integration write; then either the
no-chatwoot branch (optional qrcode connect + first result) or the chatwoot
branch (validation, `chatwootService.create` in its own try, second result). -/
def createInstanceBody (env : Env) (dto : InstanceDto) (w : World) :
    Except JsError CreateResult × World :=
  match checkDuplicateToken dto.token w with
  | .error e => (.error e, w)
  | .ok _ =>
  if !truthyS dto.token && dto.integration = some WHATSAPP_BUSINESS then
    (.error (.badRequest "token is required"), w)
  else
  let name := dto.instanceName
  let service := if dto.integration = some WHATSAPP_BUSINESS then "business" else "baileys"
  let w := saveInstance dto w
  let instanceId := env.freshId
  let w := { w with emitted := ("INSTANCE_CREATE", name) :: w.emitted }
  let w := { w with waInstances := upsertA name (freshRec name service) w.waInstances }
  let hw := generateHash env dto.token w
  let hash := hw.1
  let w := hw.2
  match webhookStage env dto name w with
  | .error e => (.error e, w)
  | .ok (webhookEvents, w) =>
  let wsP := websocketStage env dto name w
  let websocketEvents := wsP.1
  let w := wsP.2
  let rbP := rabbitmqStage env dto name w
  let rabbitmqEvents := rbP.1
  let w := rbP.2
  let sqP := sqsStage env dto name w
  let sqsEvents := sqP.1
  let w := sqP.2
  let w := typebotStage env dto name w
  let settings := mkSettings dto
  let w := { w with settingsStore := upsertA name settings w.settingsStore }
  match (if dto.integration = some WHATSAPP_BUSINESS then
           if !truthyS dto.number then
             Except.error (JsError.badRequest "number is required")
           else
             Except.ok (some ((if truthyS env.waBusinessWebhookTest then
                                  env.waBusinessWebhookTest.getD ""
                                else env.serverUrl) ++ "/webhook/whatsapp"),
                        env.waBusinessToken)
         else Except.ok ((none : Option String), "")) with
  | .error e => (.error e, w)
  | .ok (webhook_wa_business, access_token_wa_business) =>
  let w :=
    { w with integrationStore :=
               upsertA name ⟨dto.integration, dto.number, dto.token⟩ w.integrationStore }
  let baseInstance : ResultInstance :=
    { instanceName := name, instanceId := instanceId, integration := dto.integration
    , webhook_wa_business := webhook_wa_business
    , access_token_wa_business := access_token_wa_business, status := "created" }
  let baseWebhook : ResultWebhook :=
    { webhook := dto.webhook, webhook_by_events := dto.webhook_by_events
    , webhook_base64 := dto.webhook_base64, events := webhookEvents }
  let baseTypebot : ResultTypebot :=
    { enabled := truthyS dto.typebot_url, url := dto.typebot_url, typebot := dto.typebot
    , expire := dto.typebot_expire, keyword_finish := dto.typebot_keyword_finish
    , delay_message := dto.typebot_delay_message
    , unknown_message := dto.typebot_unknown_message
    , listening_from_me := dto.typebot_listening_from_me }
  if !truthyS dto.chatwoot_account_id || !truthyS dto.chatwoot_token
      || !truthyS dto.chatwoot_url then
    match (if truthyB dto.qrcode then
             match engineConnect env name w with
             | .error e => Except.error e
             | .ok w2 =>
               Except.ok ((lookupA name w2.waInstances).bind (·.qrCode), w2)
           else Except.ok ((none : Option String), w)) with
    | .error e => (.error e, w)
    | .ok (getQrcode, w) =>
      (.ok { inst := baseInstance, hash := hash, webhook := baseWebhook
           , websocket := ⟨dto.websocket_enabled, websocketEvents⟩
           , rabbitmq := ⟨dto.rabbitmq_enabled, rabbitmqEvents⟩
           , sqs := ⟨dto.sqs_enabled, sqsEvents⟩
           , typebot := baseTypebot, settings := settings
           , qrcode := getQrcode, chatwoot := none }, w)
  else
  if !truthyS dto.chatwoot_account_id then
    (.error (.badRequest "account_id is required"), w)
  else if !truthyS dto.chatwoot_token then
    (.error (.badRequest "token is required"), w)
  else if !truthyS dto.chatwoot_url then
    (.error (.badRequest "url is required"), w)
  else if !isURLb (dto.chatwoot_url.getD "") then
    (.error (.badRequest "Invalid \"url\" property in chatwoot"), w)
  else if dto.chatwoot_sign_msg = none then
    (.error (.badRequest "sign_msg is required"), w)
  else if dto.chatwoot_reopen_conversation = none then
    (.error (.badRequest "reopen_conversation is required"), w)
  else if dto.chatwoot_conversation_pending = none then
    (.error (.badRequest "conversation_pending is required"), w)
  else
    let cwCfg : ChatwootConfig :=
      ⟨true, dto.chatwoot_account_id.getD "", dto.chatwoot_token.getD "",
       dto.chatwoot_url.getD "", truthyB dto.chatwoot_sign_msg,
       ((name.splitOn "-cwId-").headD ""), dto.number,
       truthyB dto.chatwoot_reopen_conversation,
       truthyB dto.chatwoot_conversation_pending,
       dto.chatwoot_import_contacts.getD true,
       dto.chatwoot_import_messages.getD true,
       dto.chatwoot_days_limit_import_messages.getD 60, true⟩
    let w :=
      if env.chatwootCreateFails then w
      else { w with chatwootStore := upsertA name cwCfg w.chatwootStore }
    (.ok { inst := baseInstance, hash := hash, webhook := baseWebhook
         , websocket := ⟨dto.websocket_enabled, websocketEvents⟩
         , rabbitmq := ⟨dto.rabbitmq_enabled, rabbitmqEvents⟩
         , sqs := ⟨dto.sqs_enabled, sqsEvents⟩
         , typebot := baseTypebot, settings := settings
         , qrcode := none
         , chatwoot := some
             { enabled := true, account_id := dto.chatwoot_account_id.getD ""
             , token := dto.chatwoot_token.getD "", url := dto.chatwoot_url.getD ""
             , sign_msg := truthyB dto.chatwoot_sign_msg
             , reopen_conversation := truthyB dto.chatwoot_reopen_conversation
             , conversation_pending := truthyB dto.chatwoot_conversation_pending
             , import_contacts := dto.chatwoot_import_contacts.getD true
             , import_messages := dto.chatwoot_import_messages.getD true
             , days_limit_import_messages :=
                 (match dto.chatwoot_days_limit_import_messages with
                  | some d => if d = 0 then 60 else d
                  | none => 60)
             , number := dto.number, name_inbox := name
             , webhook_url := env.serverUrl ++ "/chatwoot/webhook/" ++ name } }, w)

/-- `InstanceController.createInstance` (lines 48-571): the body above wrapped
in the outer catch, which rethrows every error as
`BadRequestException(error.message[0])` without undoing any mutation. -/
def createInstance (env : Env) (dto : InstanceDto) (w : World) :
    Except JsError CreateResult × World :=
  match createInstanceBody env dto w with
  | (.error e, w2) => (.error (.badRequest (messageZero e)), w2)
  | ok => ok

/-- The `instance` block returned by `connectionState` (lines 637-645):
`state` is `undefined` when the instance is not registered. -/
structure StateInfo where
  instanceName : String
  state : Option String
  deriving DecidableEq, Repr

/-- `InstanceController.connectionState` (lines 637-645). -/
def connectionState (name : String) (w : World) : StateInfo :=
  ⟨name, (lookupA name w.waInstances).map (·.state)⟩

/-- The heterogeneous value returned by `connectToWhatsapp` (lines 573-612):
the `connectionState` shape for an open instance, a bare QR artifact for a
connecting or freshly-connected one, the status/qrcode object of the fallthrough
return, or `undefined` from the catch. -/
inductive ConnectResult where
  | info (s : StateInfo)
  | qr (q : Option String)
  | stateQr (instanceName : String) (status : String) (q : Option String)
  | undef
  deriving DecidableEq, Repr

/-- `InstanceController.connectToWhatsapp` (lines 573-612): missing instance
throws (caught: returns undefined); `open` returns the connection state
without touching the engine; `connecting` returns the cached QR without
initiating a session; `close` initiates one engine session, waits the settle
delay and returns the fresh QR; any other state falls through to the
status/qrcode object. -/
def connectToWhatsappCtrl (env : Env) (name : String) (w : World) :
    ConnectResult × World :=
  match lookupA name w.waInstances with
  | none => (.undef, w)
  | some inst =>
    if inst.state = "open" then (.info (connectionState name w), w)
    else if inst.state = "connecting" then (.qr inst.qrCode, w)
    else if inst.state = "close" then
      match engineConnect env name w with
      | .error _ => (.undef, w)
      | .ok w2 =>
        match lookupA name w2.waInstances with
        | some inst2 => (.qr inst2.qrCode, w2)
        | none => (.qr none, w2)
    else (.stateQr name inst.state inst.qrCode, w)

/-- The `{status, error, response.message}` object returned by `logout` and
`deleteInstance`. -/
structure StatusResult where
  status : String
  error : Bool
  message : String
  deriving DecidableEq, Repr

/-- Modelled from the spec: the engine's `logoutInstance` (startup services are
not under `src/`; spec §4.2) — drives the session to closed, releasing it; may
throw. -/
def logoutInstance (env : Env) (name : String) (w : World) : Except JsError World :=
  match env.logoutError with
  | some m => .error (.jsError m)
  | none =>
    let f := fun (r : InstanceRec) => { r with state := "close", qrCode := none }
    .ok { w with waInstances := updateInst name f w.waInstances }

/-- `InstanceController.logout` (lines 660-675): a closed instance is a caller
error; otherwise `logoutInstance` is invoked through optional chaining (a no-op
for a missing instance) and an engine failure is rethrown as
`InternalServerErrorException(error.toString())`. -/
def logoutCtrl (env : Env) (name : String) (w : World) :
    Except JsError StatusResult × World :=
  let st := connectionState name w
  if st.state = some "close" then
    (.error (.badRequest ("The \"" ++ name ++ "\" instance is not connected")), w)
  else
    match lookupA name w.waInstances with
    | none => (.ok ⟨"SUCCESS", false, "Instance logged out"⟩, w)
    | some _ =>
      match logoutInstance env name w with
      | .error e => (.error (.internalError (jsToString e)), w)
      | .ok w2 => (.ok ⟨"SUCCESS", false, "Instance logged out"⟩, w2)

/-- `InstanceController.deleteInstance` (lines 677-711): an open instance is
rejected before the try; then best-effort broker-queue and chatwoot-cache
cleanup via optional chaining, a real `logout` when connecting, the
INSTANCE_DELETE dispatch in its own try (a missing instance makes it a caught
TypeError), the registry delete (a no-op when absent), the `remove.instance`
emit, and the success object; any error inside the try is rethrown as
`BadRequestException(error.toString())`. -/
def deleteInstance (env : Env) (name : String) (w : World) :
    Except JsError StatusResult × World :=
  let st := connectionState name w
  if st.state = some "open" then
    (.error (.badRequest ("The \"" ++ name ++ "\" instance needs to be disconnected")), w)
  else
    let w1 :=
      match lookupA name w.waInstances with
      | some _ => { w with rabbitQueues := w.rabbitQueues.filter (· ≠ name),
                           chatwootCacheKeys := w.chatwootCacheKeys.filter (· ≠ name) }
      | none => w
    match (if st.state = some "connecting" then
             match logoutCtrl env name w1 with
             | (.ok _, w2) => (Except.ok (), w2)
             | (.error e, w2) => (Except.error e, w2)
           else (Except.ok (), w1)) with
    | (.error e, w2) => (.error (.badRequest (jsToString e)), w2)
    | (.ok _, w2) =>
      let w3 :=
        match lookupA name w2.waInstances with
        | some _ => { w2 with emitted := ("INSTANCE_DELETE", name) :: w2.emitted }
        | none => w2
      let w4 := { w3 with waInstances := removeA name w3.waInstances,
                          emitted := ("remove.instance", name) :: w3.emitted }
      (.ok ⟨"SUCCESS", false, "Instance deleted"⟩, w4)

/-! ## Basic facts about the association-list operations -/

theorem lookupA_upsertA_self {β : Type} (k : String) (v : β) (l : List (String × β)) :
    lookupA k (upsertA k v l) = some v := by
  induction l with
  | nil => simp [upsertA, lookupA]
  | cons p rest ih =>
    obtain ⟨k2, v2⟩ := p
    by_cases h : k2 = k <;> simp [upsertA, lookupA, h, ih]

theorem lookupA_removeA_self {β : Type} (k : String) (l : List (String × β)) :
    lookupA k (removeA k l) = none := by
  induction l with
  | nil => simp [removeA, lookupA]
  | cons p rest ih =>
    obtain ⟨k2, v2⟩ := p
    by_cases h : k2 = k <;> simp [removeA, lookupA, h, ih]

theorem lookupA_updateInst_of_lookupA (k : String) (f : InstanceRec → InstanceRec)
    (l : List (String × InstanceRec)) (r : InstanceRec) (h : lookupA k l = some r) :
    lookupA k (updateInst k f l) = some (f r) := by
  simp [updateInst, h, lookupA_upsertA_self]

/-! ## Shared fixtures for concrete evaluations -/

/-- The default environment: no collaborator call fails. -/
def defEnv : Env := {}

/-- The empty world: nothing registered, no tokens issued, empty stores. -/
def emptyWorld : World := {}

/-- A minimal creation request: just a name, every optional field omitted. -/
def plainDto (n : String) : InstanceDto := { instanceName := n }

/-- A creation request asking for an immediate connection (`qrcode: true`). -/
def qrDto (n : String) : InstanceDto := { instanceName := n, qrcode := some true }

/-- A creation request supplying a webhook destination and an optional
explicit event list. -/
def webhookDto (n : String) (u : String) (evs : Option (List String)) : InstanceDto :=
  { instanceName := n, webhook := some u, events := evs }

/-- A creation request enabling the websocket channel with an optional
explicit event list. -/
def websocketDto (n : String) (evs : Option (List String)) : InstanceDto :=
  { instanceName := n, websocket_enabled := some true, websocket_events := evs }

/-- A creation request enabling the rabbitmq channel. -/
def rabbitmqDto (n : String) (evs : Option (List String)) : InstanceDto :=
  { instanceName := n, rabbitmq_enabled := some true, rabbitmq_events := evs }

/-- A creation request enabling the sqs channel. -/
def sqsDto (n : String) (evs : Option (List String)) : InstanceDto :=
  { instanceName := n, sqs_enabled := some true, sqs_events := evs }

/-- A creation request supplying a typebot destination. -/
def typebotDto (n : String) (u : String) : InstanceDto :=
  { instanceName := n, typebot_url := some u }

/-- A creation request asking for all five optional channels, with valid
destinations and explicit event lists. -/
def allChannelsDto : InstanceDto :=
  { instanceName := "eve"
  , webhook := some "http://wh.example"
  , events := some ["MESSAGES_UPSERT"]
  , websocket_enabled := some true
  , websocket_events := some ["CALL"]
  , rabbitmq_enabled := some true
  , rabbitmq_events := some ["CHATS_SET"]
  , sqs_enabled := some true
  , sqs_events := some ["SEND_MESSAGE"]
  , typebot_url := some "http://tb.example"
  , typebot := some "flow" }

/-- A registered record in the `connecting` state holding a QR artifact. -/
def connectingRec : InstanceRec :=
  { instanceName := "bob", service := "baileys", state := "connecting"
  , qrCode := some "QR7", sessions := 1 }

/-- A registered record in the `open` state. -/
def openRec : InstanceRec :=
  { instanceName := "bob", service := "baileys", state := "open", sessions := 1 }

/-- A registered record in the `close` state. -/
def closeRec : InstanceRec := { instanceName := "bob", service := "baileys" }

/-- A registry holding exactly the instance "bob" with the given record. -/
def worldWithBob (r : InstanceRec) : World := { waInstances := [("bob", r)] }

/-! ## Claim theorems -/

/-- Claim C8: `connect` is idempotent.  For a registered instance in the
`connecting` state, `connectToWhatsapp` returns the cached QR artifact and
leaves the world unchanged (in particular no new engine session is initiated),
so a second call returns the same QR artifact; for an instance in the `open`
state it is a no-op that returns the current connection state. -/
theorem connectToWhatsapp_idempotent (env : Env) (n : String) (w : World)
    (r : InstanceRec) (h : lookupA n w.waInstances = some r) :
    (r.state = "connecting" →
       connectToWhatsappCtrl env n w = (ConnectResult.qr r.qrCode, w)
       ∧ connectToWhatsappCtrl env n (connectToWhatsappCtrl env n w).2
           = (ConnectResult.qr r.qrCode, w))
    ∧ (r.state = "open" →
       connectToWhatsappCtrl env n w = (ConnectResult.info ⟨n, some "open"⟩, w)) := by
  constructor
  · intro hs
    have h1 : connectToWhatsappCtrl env n w = (ConnectResult.qr r.qrCode, w) := by
      simp [connectToWhatsappCtrl, h, hs]
    exact ⟨h1, by rw [h1]; exact h1⟩
  · intro hs
    simp [connectToWhatsappCtrl, connectionState, h, hs]

/-- Claim C8 witness: instantiated on a registry holding "bob" in the
`connecting` state with QR artifact "QR7". -/
theorem connectToWhatsapp_idempotent_w :
    connectingRec.state = "connecting"
    ∧ connectToWhatsappCtrl defEnv "bob" (worldWithBob connectingRec)
        = (ConnectResult.qr (some "QR7"), worldWithBob connectingRec) :=
  ⟨rfl,
    ((connectToWhatsapp_idempotent defEnv "bob" (worldWithBob connectingRec)
        connectingRec (by decide)).1 rfl).1⟩

/-- Claim C9: `deleteInstance` on a registered instance fails with the
state-precondition error (`BadRequestException "... needs to be disconnected"`)
when the connection state is `open`, leaving the world untouched (it never
auto-disconnects); on `close` it succeeds and the instance is absent from the
registry afterward; on `connecting` — provided the engine logout raises no
error — it succeeds and the instance is absent afterward. -/
theorem deleteInstance_state_policy (env : Env) (n : String) (w : World)
    (r : InstanceRec) (h : lookupA n w.waInstances = some r) :
    (r.state = "open" →
       deleteInstance env n w
         = (.error (.badRequest ("The \"" ++ n ++ "\" instance needs to be disconnected")), w))
    ∧ (r.state = "close" →
       (deleteInstance env n w).1 = .ok ⟨"SUCCESS", false, "Instance deleted"⟩
       ∧ lookupA n (deleteInstance env n w).2.waInstances = none)
    ∧ (r.state = "connecting" → env.logoutError = none →
       (deleteInstance env n w).1 = .ok ⟨"SUCCESS", false, "Instance deleted"⟩
       ∧ lookupA n (deleteInstance env n w).2.waInstances = none) := by
  refine ⟨fun hs => ?_, fun hs => ?_, fun hs hl => ?_⟩
  · simp [deleteInstance, connectionState, h, hs]
  · simp [deleteInstance, connectionState, h, hs, lookupA_removeA_self]
  · simp [deleteInstance, connectionState, logoutCtrl, logoutInstance, h, hs, hl,
      updateInst, lookupA_upsertA_self, lookupA_removeA_self]

/-- Claim C9 witness: instantiated on registries holding "bob" in the `open`,
`close` and `connecting` states respectively. -/
theorem deleteInstance_state_policy_w :
    (openRec.state = "open"
     ∧ deleteInstance defEnv "bob" (worldWithBob openRec)
         = (.error (.badRequest "The \"bob\" instance needs to be disconnected"),
            worldWithBob openRec))
    ∧ (closeRec.state = "close"
       ∧ (deleteInstance defEnv "bob" (worldWithBob closeRec)).1
           = .ok ⟨"SUCCESS", false, "Instance deleted"⟩
       ∧ lookupA "bob" (deleteInstance defEnv "bob" (worldWithBob closeRec)).2.waInstances
           = none)
    ∧ (connectingRec.state = "connecting" ∧ defEnv.logoutError = none
       ∧ (deleteInstance defEnv "bob" (worldWithBob connectingRec)).1
           = .ok ⟨"SUCCESS", false, "Instance deleted"⟩) :=
  ⟨⟨rfl, (deleteInstance_state_policy defEnv "bob" (worldWithBob openRec) openRec
            (by decide)).1 rfl⟩,
   ⟨rfl, (deleteInstance_state_policy defEnv "bob" (worldWithBob closeRec) closeRec
            (by decide)).2.1 rfl⟩,
   ⟨rfl, rfl,
    ((deleteInstance_state_policy defEnv "bob" (worldWithBob connectingRec) connectingRec
        (by decide)).2.2 rfl rfl).1⟩⟩

/-- Claim C10: for an instance name absent from the registry, `deleteInstance`
does not surface an error: every internal per-step failure is caught (the
INSTANCE_DELETE dispatch on the missing record is a caught TypeError) and the
final registry delete is a no-op, so the call returns the success object
`{status: SUCCESS, error: false}`. -/
theorem deleteInstance_missing_instance (env : Env) (n : String) (w : World)
    (h : lookupA n w.waInstances = none) :
    (deleteInstance env n w).1 = .ok ⟨"SUCCESS", false, "Instance deleted"⟩
    ∧ lookupA n (deleteInstance env n w).2.waInstances = none := by
  simp [deleteInstance, connectionState, h, lookupA_removeA_self]

/-- Claim C10 witness: deleting the never-registered name "zoe" from the empty
world succeeds. -/
theorem deleteInstance_missing_instance_w :
    lookupA "zoe" emptyWorld.waInstances = none
    ∧ (deleteInstance defEnv "zoe" emptyWorld).1
        = .ok ⟨"SUCCESS", false, "Instance deleted"⟩ :=
  ⟨rfl, (deleteInstance_missing_instance defEnv "zoe" emptyWorld rfl).1⟩

/-- An already-registered record for "alice" that differs from a freshly
constructed one (it has an initiated session). -/
def aliceRec0 : InstanceRec :=
  { instanceName := "alice", service := "baileys", state := "close", sessions := 1 }

/-- A registry already holding "alice". -/
def worldWithAlice : World := { waInstances := [("alice", aliceRec0)] }

/-- Claim C1 counterexample: with "alice" already present in the registry,
`createInstance` for a duplicate "alice" does not fail at all — it returns
status "created" — and the registry mapping is changed: the existing record is
replaced by the freshly constructed one. -/
theorem createInstance_duplicate_name_not_rejected :
    ((createInstance defEnv (plainDto "alice") worldWithAlice).1.toOption.map (·.inst.status)
        = some "created")
    ∧ lookupA "alice"
        (createInstance defEnv (plainDto "alice") worldWithAlice).2.waInstances
        = some (freshRec "alice" "baileys")
    ∧ freshRec "alice" "baileys" ≠ aliceRec0 := by decide

/-- Claim C1 amended: `createInstance` performs no instance-name uniqueness
check: a call whose `instanceName` is already present in the registry succeeds
(status "created") and the raw registry write `waInstances[name] = instance`
replaces the existing record with the freshly constructed one (so the old
record is lost whenever it differed from a fresh one). -/
theorem createInstance_duplicate_name_overwrites (env : Env) (w : World) (n : String)
    (r0 : InstanceRec) (_h : lookupA n w.waInstances = some r0) :
    ((createInstance env (plainDto n) w).1.toOption.map (·.inst.status) = some "created")
    ∧ lookupA n (createInstance env (plainDto n) w).2.waInstances
        = some (freshRec n "baileys")
    ∧ (freshRec n "baileys" ≠ r0 →
        lookupA n (createInstance env (plainDto n) w).2.waInstances ≠ some r0) := by
  refine ⟨?_, ?_, ?_⟩ <;>
    simp [createInstance, createInstanceBody, plainDto, checkDuplicateToken,
      saveInstance, generateHash, truthyS, truthyB, webhookStage, websocketStage,
      rabbitmqStage, sqsStage, typebotStage, mkSettings, WHATSAPP_BUSINESS,
      Except.toOption, lookupA_upsertA_self]

/-- Claim C1 amended witness: instantiated on the registry already holding
"alice". -/
theorem createInstance_duplicate_name_overwrites_w :
    lookupA "alice" worldWithAlice.waInstances = some aliceRec0
    ∧ ((createInstance defEnv (plainDto "alice") worldWithAlice).1.toOption.map
         (·.inst.status) = some "created") :=
  ⟨by decide,
   (createInstance_duplicate_name_overwrites defEnv worldWithAlice "alice" aliceRec0
      (by decide)).1⟩

/-- The §8 "carol" scenario: chatwoot partially supplied (account id present,
token and url missing). -/
def carolDto : InstanceDto := { instanceName := "carol", chatwoot_account_id := some "1" }

/-- Claim C2: evaluation at the failing input.  With chatwoot fields partially
supplied (account id present, token and url absent), the guard
`!chatwoot_account_id || !chatwoot_token || !chatwoot_url`
(instance.controller.ts:404) routes the call into the no-chatwoot branch and
returns success: no ValidationError is raised (the `account_id is required` /
`token is required` / `url is required` checks at lines 462-472 are
unreachable), "carol" ends up registered, and no chatwoot configuration is
persisted — contradicting the documented all-or-nothing CRM-sync rule. -/
theorem createInstance_partial_chatwoot_succeeds :
    ((createInstance defEnv carolDto emptyWorld).1.toOption.map (·.inst.status)
        = some "created")
    ∧ ((createInstance defEnv carolDto emptyWorld).1.toOption.map (·.chatwoot) = some none)
    ∧ ((lookupA "carol" (createInstance defEnv carolDto emptyWorld).2.waInstances).isSome
        = true)
    ∧ lookupA "carol" (createInstance defEnv carolDto emptyWorld).2.chatwootStore
        = none := by decide

/-- An environment in which the engine's connect raises an EngineError. -/
def connThrowEnv : Env := { connectError := some "Connection Closed" }

/-- Claim C3 counterexample: when the connect step of a `qrcode` provisioning
call raises an EngineError, the overall `createInstance` call does NOT return a
successful result: the connect `await` sits in no local try, so the error
reaches the outer catch and the call fails with
`BadRequestException(error.message[0])`; the instance is nonetheless left
registered. -/
theorem createInstance_engine_throw_fails_call :
    (createInstance connThrowEnv (qrDto "dave") emptyWorld).1
        = .error (.badRequest "Connection Closed")
    ∧ (lookupA "dave"
         (createInstance connThrowEnv (qrDto "dave") emptyWorld).2.waInstances).isSome
        = true := by decide

/-- Claim C3 amended: an EngineError raised by the connect step propagates out
of `createInstance`: the call fails with a `BadRequestException` carrying the
engine error's message, although the instance stays registered.  Only an engine
failure that raises nothing (the session failing asynchronously, leaving no QR
by the end of the settle delay) keeps the overall call successful, returning
status "created" with the QR field absent. -/
theorem createInstance_engine_error_behaviour (env : Env) (n m : String) :
    (env.connectError = some m →
       (createInstance env (qrDto n) emptyWorld).1 = .error (.badRequest m)
       ∧ (lookupA n (createInstance env (qrDto n) emptyWorld).2.waInstances).isSome
           = true)
    ∧ (env.connectError = none → env.qrAfterConnect = none →
       (createInstance env (qrDto n) emptyWorld).1.toOption.map
           (fun r => (r.inst.status, r.qrcode))
         = some ("created", none)) := by
  constructor
  · intro hc
    refine ⟨?_, ?_⟩ <;>
      simp [createInstance, createInstanceBody, qrDto, checkDuplicateToken,
        saveInstance, generateHash, truthyS, truthyB, webhookStage, websocketStage,
        rabbitmqStage, sqsStage, typebotStage, mkSettings, WHATSAPP_BUSINESS,
        engineConnect, hc, messageZero, Except.toOption, lookupA_upsertA_self]
  · intro hc hq
    simp [createInstance, createInstanceBody, qrDto, checkDuplicateToken,
      saveInstance, generateHash, truthyS, truthyB, webhookStage, websocketStage,
      rabbitmqStage, sqsStage, typebotStage, mkSettings, WHATSAPP_BUSINESS,
      engineConnect, hc, hq, updateInst, Except.toOption, lookupA_upsertA_self]

/-- An environment in which the connect step raises nothing but the session has
produced no QR artifact by the end of the settle delay. -/
def silentFailEnv : Env := { qrAfterConnect := none }

/-- Claim C3 amended witness: instantiated on an engine that raises
"Connection Closed" and on one that fails silently (no QR, no error). -/
theorem createInstance_engine_error_behaviour_w :
    (connThrowEnv.connectError = some "Connection Closed"
     ∧ (createInstance connThrowEnv (qrDto "dan") emptyWorld).1
         = .error (.badRequest "Connection Closed"))
    ∧ (silentFailEnv.connectError = none
       ∧ (createInstance silentFailEnv (qrDto "dan") emptyWorld).1.toOption.map
           (fun r => (r.inst.status, r.qrcode)) = some ("created", none)) :=
  ⟨⟨rfl, ((createInstance_engine_error_behaviour connThrowEnv "dan" "Connection Closed").1
       rfl).1⟩,
   ⟨rfl, (createInstance_engine_error_behaviour silentFailEnv "dan" "unused").2 rfl rfl⟩⟩

/-- A creation request with a fresh name and a malformed webhook URL. -/
def frankDto : InstanceDto := { instanceName := "frank", webhook := some "notaurl" }

/-- Claim C4 counterexample: a `createInstance` call that fails with the
ValidationError `Invalid "url" property in webhook` does so only AFTER the
registry write (lines 118/131 precede the URL check at 148), so partial
mutation HAS occurred: the error is surfaced (message intact through the outer
catch) but "frank" is left registered in an otherwise-failed call. -/
theorem createInstance_validation_after_registration :
    (createInstance defEnv frankDto emptyWorld).1
        = .error (.badRequest "Invalid \"url\" property in webhook")
    ∧ (lookupA "frank"
         (createInstance defEnv frankDto emptyWorld).2.waInstances).isSome = true := by
  decide

/-- Claim C4 amended: the duplicate-token check is the first step of
`createInstance`, before any instance construction or registry write: a call
failing with `DuplicateTokenError` ("Token already exists") surfaces that error
verbatim (kind and message preserved by the outer catch) with the world
completely unchanged.  ValidationErrors are likewise surfaced verbatim, but
those raised after the registry write (e.g. a malformed webhook URL) can leave
the new instance registered: the no-partial-mutation guarantee holds for the
duplicate-token check, not for every ValidationError. -/
theorem createInstance_duplicate_token_fails_fast (env : Env) (dto : InstanceDto)
    (w : World) (t : String) (h1 : dto.token = some t)
    (h2 : w.usedTokens.contains t = true) :
    createInstance env dto w = (.error (.badRequest "Token already exists"), w) := by
  have h2m : t ∈ w.usedTokens := by simpa using h2
  simp [createInstance, createInstanceBody, checkDuplicateToken, h1, h2m, messageZero]

/-- Claim C4 amended witness: instantiated with the already-issued token "t1". -/
theorem createInstance_duplicate_token_fails_fast_w :
    ({ instanceName := "gina", token := some "t1" } : InstanceDto).token = some "t1"
    ∧ ({ usedTokens := ["t1"] } : World).usedTokens.contains "t1" = true
    ∧ createInstance defEnv { instanceName := "gina", token := some "t1" }
        { usedTokens := ["t1"] }
        = (.error (.badRequest "Token already exists"), { usedTokens := ["t1"] }) :=
  ⟨rfl, by decide,
   createInstance_duplicate_token_fails_fast defEnv
     { instanceName := "gina", token := some "t1" } { usedTokens := ["t1"] } "t1"
     rfl (by decide)⟩

/-- An environment in which the five optional channels' configure calls fail
according to the given flags. -/
def channelFailEnv (f1 f2 f3 f4 f5 : Bool) : Env :=
  { webhookCreateFails := f1, websocketCreateFails := f2, rabbitmqCreateFails := f3
  , sqsCreateFails := f4, typebotCreateFails := f5 }

/-- Claim C5: per-channel isolation.  For every combination of configure-step
failures across the five optional channels (webhook, websocket, rabbitmq, sqs,
typebot), provisioning still succeeds with status "created", the instance is
registered, and the result reflects exactly which channels succeeded: a failed
channel's resolved event list is absent while every other channel's is exactly
the one it adopted, and the typebot configuration is persisted iff its
configure step did not throw. -/
theorem createInstance_channel_isolation (f1 f2 f3 f4 f5 : Bool) :
    ((createInstance (channelFailEnv f1 f2 f3 f4 f5) allChannelsDto emptyWorld).1.toOption.map
        (·.inst.status) = some "created")
    ∧ ((createInstance (channelFailEnv f1 f2 f3 f4 f5) allChannelsDto emptyWorld).1.toOption.map
        (·.webhook.events) = some (if f1 then none else some ["MESSAGES_UPSERT"]))
    ∧ ((createInstance (channelFailEnv f1 f2 f3 f4 f5) allChannelsDto emptyWorld).1.toOption.map
        (·.websocket.events) = some (if f2 then none else some ["CALL"]))
    ∧ ((createInstance (channelFailEnv f1 f2 f3 f4 f5) allChannelsDto emptyWorld).1.toOption.map
        (·.rabbitmq.events) = some (if f3 then none else some ["CHATS_SET"]))
    ∧ ((createInstance (channelFailEnv f1 f2 f3 f4 f5) allChannelsDto emptyWorld).1.toOption.map
        (·.sqs.events) = some (if f4 then none else some ["SEND_MESSAGE"]))
    ∧ ((lookupA "eve"
          (createInstance (channelFailEnv f1 f2 f3 f4 f5) allChannelsDto
             emptyWorld).2.typebotStore).isSome = !f5)
    ∧ ((lookupA "eve"
          (createInstance (channelFailEnv f1 f2 f3 f4 f5) allChannelsDto
             emptyWorld).2.waInstances).isSome = true) := by
  cases f1 <;> cases f2 <;> cases f3 <;> cases f4 <;> cases f5 <;> decide

/-- Claim C6 counterexample: the websocket variant requested with its event
list omitted.  The source reads `websocket_events.length` inside the try, so
the omitted list raises a TypeError that is caught and logged: the resolved
configuration's event list is absent (nothing is persisted either), which is
not the Event Catalog's default set as the claim requires. -/
theorem createInstance_websocket_omitted_not_default :
    ((createInstance defEnv (websocketDto "hugo" none) emptyWorld).1.toOption.map
        (·.websocket.events) = some none)
    ∧ ((createInstance defEnv (websocketDto "hugo" none) emptyWorld).1.toOption.map
        (·.websocket.events) ≠ some (some catalogDefaultEvents))
    ∧ lookupA "hugo"
        (createInstance defEnv (websocketDto "hugo" none) emptyWorld).2.websocketStore
        = none := by decide

/-- Claim C6 amended: event-list resolution per variant.  For the webhook
variant an omitted or empty event list resolves to the default set (equal, as
an order-insensitive set, to the Event Catalog's full enumeration), and an
explicit non-empty list is adopted exactly.  For the websocket / rabbitmq / sqs
variants a supplied empty list resolves to the default set and a supplied
non-empty list is adopted exactly, but an omitted list makes that channel's
configuration attempt fail (caught and logged), leaving no event list at
all. -/
theorem createInstance_event_list_rules (evs : List String) (hne : evs ≠ []) :
    ((createInstance defEnv (webhookDto "hank" "http://wh.example" none)
        emptyWorld).1.toOption.map (·.webhook.events) = some (some defaultInlineEvents))
    ∧ ((createInstance defEnv (webhookDto "hank" "http://wh.example" (some []))
        emptyWorld).1.toOption.map (·.webhook.events) = some (some defaultInlineEvents))
    ∧ ((createInstance defEnv (webhookDto "hank" "http://wh.example" (some evs))
        emptyWorld).1.toOption.map (·.webhook.events) = some (some evs))
    ∧ ((createInstance defEnv (websocketDto "hank" (some [])) emptyWorld).1.toOption.map
        (·.websocket.events) = some (some defaultInlineEvents))
    ∧ ((createInstance defEnv (websocketDto "hank" (some evs)) emptyWorld).1.toOption.map
        (·.websocket.events) = some (some evs))
    ∧ ((createInstance defEnv (rabbitmqDto "hank" (some [])) emptyWorld).1.toOption.map
        (·.rabbitmq.events) = some (some defaultInlineEvents))
    ∧ ((createInstance defEnv (sqsDto "hank" (some [])) emptyWorld).1.toOption.map
        (·.sqs.events) = some (some defaultInlineEvents))
    ∧ ((createInstance defEnv (websocketDto "hank" none) emptyWorld).1.toOption.map
        (·.websocket.events) = some none)
    ∧ sameSet defaultInlineEvents catalogDefaultEvents := by
  obtain ⟨a, l, rfl⟩ : ∃ a l, evs = a :: l := by
    cases evs with
    | nil => exact absurd rfl hne
    | cons a l => exact ⟨a, l, rfl⟩
  have hurl : isURLb "http://wh.example" = true := by decide
  have hw : ("http://wh.example" : String).isEmpty = false := by decide
  refine ⟨by decide, by decide, ?_, by decide, ?_, by decide, by decide, by decide,
    fun s => Iff.rfl⟩ <;>
    simp [createInstance, createInstanceBody, webhookDto, websocketDto, checkDuplicateToken,
      saveInstance, generateHash, truthyB, webhookStage, websocketStage, rabbitmqStage,
      sqsStage, typebotStage, mkSettings, WHATSAPP_BUSINESS, defEnv, hurl, hw, truthyS,
      Except.toOption, lookupA_upsertA_self]

/-- Claim C6 amended witness: instantiated with the explicit non-empty list
`["CALL"]` for the websocket variant. -/
theorem createInstance_event_list_rules_w :
    (["CALL"] ≠ ([] : List String))
    ∧ ((createInstance defEnv (websocketDto "hank" (some ["CALL"])) emptyWorld).1.toOption.map
        (·.websocket.events) = some (some ["CALL"])) :=
  ⟨by decide, (createInstance_event_list_rules ["CALL"] (by decide)).2.2.2.2.1⟩

/-- Claim C7 counterexample: a malformed typebot destination URL.  The typebot
URL check sits inside the channel's try (lines 349-352), so the
`BadRequestException` it raises is immediately caught and logged: the overall
call succeeds (status "created") instead of failing with a surfaced
ValidationError, and no typebot configuration is persisted. -/
theorem createInstance_typebot_bad_url_swallowed :
    ((createInstance defEnv (typebotDto "ivy" "notaurl") emptyWorld).1.toOption.map
        (·.inst.status) = some "created")
    ∧ lookupA "ivy"
        (createInstance defEnv (typebotDto "ivy" "notaurl") emptyWorld).2.typebotStore
        = none := by decide

/-- Claim C7 amended: URL-validation asymmetry.  A malformed webhook
destination fails the `createInstance` call with the surfaced ValidationError
`Invalid "url" property in webhook` (its check precedes the webhook try);
a malformed typebot destination is caught and logged like any other channel
configuration failure — the call succeeds and the typebot configuration is
simply not persisted. -/
theorem createInstance_url_validation_asymmetry (u : String)
    (h1 : u.isEmpty = false) (h2 : isURLb u = false) :
    ((createInstance defEnv (webhookDto "wade" u none) emptyWorld).1
        = .error (.badRequest "Invalid \"url\" property in webhook"))
    ∧ ((createInstance defEnv (typebotDto "tina" u) emptyWorld).1.toOption.map
        (·.inst.status) = some "created")
    ∧ lookupA "tina"
        (createInstance defEnv (typebotDto "tina" u) emptyWorld).2.typebotStore
        = none := by
  refine ⟨?_, ?_, ?_⟩ <;>
    simp [createInstance, createInstanceBody, webhookDto, typebotDto, checkDuplicateToken,
      saveInstance, generateHash, truthyS, truthyB, webhookStage, websocketStage,
      rabbitmqStage, sqsStage, typebotStage, mkSettings, WHATSAPP_BUSINESS, messageZero,
      defEnv, h1, h2, lookupA, Except.toOption, lookupA_upsertA_self]

/-- Claim C7 amended witness: instantiated with the malformed destination
"notaurl". -/
theorem createInstance_url_validation_asymmetry_w :
    ("notaurl" : String).isEmpty = false
    ∧ isURLb "notaurl" = false
    ∧ ((createInstance defEnv (webhookDto "wade" "notaurl" none) emptyWorld).1
        = .error (.badRequest "Invalid \"url\" property in webhook")) :=
  ⟨by decide, by decide,
   (createInstance_url_validation_asymmetry "notaurl" (by decide) (by decide)).1⟩

end EvoApi
